import Mathlib

/-!
Verification of the migration orchestrator of the MigrateMysqlToPostgres
repository.  The definitions below are shallow embeddings of the backend
code (src/backend/server.js, src/backend/services/migration.service.js and
the evolved copies src/unnamed/part_000 / part_001); the theorems settle
the testable properties of the specification against them.
-/

deriving instance DecidableEq for Except

/-- Session status values, from the comment in the upload handler
(server.js line 86 / part_000 line 106): ready, running, completed, failed. -/
inductive Status where
  | ready
  | running
  | completed
  | failed
deriving DecidableEq, Repr

/-- The mutable per-migration record stored in the in-memory migrations map
(server.js lines 81-91 / part_000 lines 101-111).  Only the fields the
claims are about are modelled; `cleaned` tracks whether the download
handler's artifact cleanup has removed the output file from disk
(part_000 lines 294-306). -/
structure Session where
  status : Status
  progress : Nat
  outputFile : Option String
  error : Option String
  dbName : Option String
  cleaned : Bool
deriving DecidableEq, Repr

/-- JavaScript truthiness for an optional string environment value:
undefined and the empty string are falsy. -/
def truthy : Option String → Bool
  | none => false
  | some s => !s.isEmpty

/-- JavaScript a-or-b (the logical-or used on strings), as in
"process.env.DATABASE_NAME || process.env.MYSQL_DATABASE". -/
def jsOr (a b : Option String) : Option String :=
  if truthy a then a else b

/-- JavaScript whitespace characters matched by the regex class backslash-s,
restricted to the ASCII ones the tool output can contain. -/
def jsWS (c : Char) : Bool :=
  c = ' ' || c = '\t' || c = '\n' || c = '\r' || c = Char.ofNat 11 || c = Char.ofNat 12

/-- The single-quote character (code 39), kept out of literals. -/
def quoteChar : Char := Char.ofNat 39

/-- The backtick character (code 96), kept out of literals. -/
def backtickChar : Char := Char.ofNat 96

/-- Characters escaped by encodeCredentials: the regex class of
migration.service.js line 102 / part_001 line 114, namely
colon, single quote, at sign, slash, question mark, hash and brackets. -/
def reservedCredChars : List Char :=
  [':', quoteChar, '@', '/', '?', '#', '[', ']']

/-- Hexadecimal rendering of a code point, upper-cased and without padding,
as produced by charCodeAt(0).toString(16).toUpperCase(). -/
def hexUpperDigits (n : Nat) : String :=
  String.mk ((Nat.toDigits 16 n).map Char.toUpper)

/-- Per-character action of encodeCredentials: a reserved character becomes
a percent sign followed by the upper-case hex of its code; any other
character is kept. -/
def encChar (c : Char) : List Char :=
  if reservedCredChars.contains c then '%' :: (hexUpperDigits c.toNat).data else [c]

/-- Character-list form of encodeCredentials (migration.service.js
lines 99-103 / part_001 lines 112-115). -/
def encodeList (l : List Char) : List Char :=
  (l.map encChar).flatten

/-- encodeCredentials: falsy input gives the empty string, otherwise each
URI-reserved character is percent-encoded. -/
def encodeCredentials (s : String) : String :=
  if s.isEmpty then "" else String.mk (encodeList s.data)

/-- Value of a hexadecimal digit character. -/
def hexVal (c : Char) : Option Nat :=
  if '0' ≤ c ∧ c ≤ '9' then some (c.toNat - 48)
  else if 'a' ≤ c ∧ c ≤ 'f' then some (c.toNat - 87)
  else if 'A' ≤ c ∧ c ≤ 'F' then some (c.toNat - 55)
  else none

/-- Modelled from the spec: the percent-decoding a connection-URI parser
applies to the userinfo part of a URI (the repository itself contains no
decoder; it hands the URI to the external loader tool).  A percent sign
followed by two hex digits decodes to the character with that code; any
other character, and a malformed percent sequence, is passed through. -/
def percentDecode : List Char → List Char
  | [] => []
  | '%' :: a :: b :: rest =>
    match hexVal a, hexVal b with
    | some x, some y => Char.ofNat (16 * x + y) :: percentDecode rest
    | _, _ => '%' :: percentDecode (a :: b :: rest)
  | c :: rest => c :: percentDecode rest

/-- The outcome of the migration-start route, with part_000's
pre-validation outcome passed in as a parameter (the `preValidateSqlDump`
helper itself lives outside the pipeline; only its Except-shaped result
reaches this handler). -/
inductive StartOutcome where
  | conflict
  | invalidDump
  | accepted
deriving DecidableEq, Repr

/-- State change of POST /api/migrate/:migrationId on a found session
(server.js lines 107-125 / part_000 lines 127-148): a running session is
rejected with 409 and nothing is written; otherwise a failed pre-validation
marks the session failed, and a successful one re-enters running with
progress reset to zero. -/
def startMigrationHandler (s : Session) (preValidate : Except String String) :
    StartOutcome × Session :=
  if s.status = Status.running then (StartOutcome.conflict, s)
  else
    match preValidate with
    | Except.error m =>
      (StartOutcome.invalidDump, { s with status := Status.failed, error := some m })
    | Except.ok db =>
      (StartOutcome.accepted,
        { s with status := Status.running, progress := 0, dbName := some db })

/-- The .then continuation of startMigration in the route (server.js
lines 140-143 / part_000 lines 162-165): completed, progress 100, output
file recorded.  The error field is not touched. -/
def onMigrationCompleted (s : Session) (outputFile : String) : Session :=
  { s with status := Status.completed, progress := 100, outputFile := some outputFile }

/-- The .catch continuation of startMigration in the route (server.js
lines 164-166 / part_000 lines 175-177): failed, error recorded.  The
output-file field is not touched. -/
def onMigrationFailed (s : Session) (msg : String) : Session :=
  { s with status := Status.failed, error := some msg }

/-- cleanupArtifacts of the download route (part_000 lines 294-306): after
a finished download it removes the on-disk artifacts and nulls the
session's outputFile; the route 404s first when outputFile is already
null, so nothing happens then. -/
def cleanupArtifacts (s : Session) : Session :=
  if s.outputFile = none then s
  else { s with outputFile := none, cleaned := true }

/-- A freshly uploaded session (server.js lines 81-91). -/
def initSession : Session :=
  { status := Status.ready, progress := 0, outputFile := none, error := none,
    dbName := none, cleaned := false }

/-- Case-insensitive literal matcher: consumes the given pattern at the
head of the input (comparing lower-cased characters, as a /.../i regex
literal does) and returns the remainder. -/
def ciLit : List Char → List Char → Option (List Char)
  | [], s => some s
  | _, [] => none
  | p :: ps, c :: cs => if p.toLower = c.toLower then ciLit ps cs else none

/-- One-or-more whitespace (the regex piece backslash-s-plus), greedy:
requires a leading whitespace character and consumes the whole run. -/
def ws1 (l : List Char) : Option (List Char) :=
  match l with
  | c :: cs => if jsWS c then some (cs.dropWhile jsWS) else none
  | [] => none

/-- Zero-or-more whitespace (the regex piece backslash-s-star), greedy. -/
def wsAny (l : List Char) : List Char := l.dropWhile jsWS

/-- Single literal character matcher. -/
def chLit (c : Char) (l : List Char) : Option (List Char) :=
  match l with
  | x :: xs => if x = c then some xs else none
  | [] => none

/-- One-or-more decimal digits (the regex piece backslash-d-plus), greedy. -/
def digits1 (l : List Char) : Option (List Char) :=
  match l with
  | c :: cs => if c.isDigit then some (cs.dropWhile Char.isDigit) else none
  | [] => none

/-- Anchored-match search: regex test semantics, trying every start
position left to right. -/
def searchAny (f : List Char → Bool) : List Char → Bool
  | [] => f []
  | c :: cs => f (c :: cs) || searchAny f cs

/-- First-match-with-capture search: String.prototype.match semantics,
returning the capture of the leftmost position where the pattern matches. -/
def scanFirst (f : List Char → Option String) : List Char → Option String
  | [] => f []
  | c :: cs =>
    match f (c :: cs) with
    | some r => some r
    | none => scanFirst f cs

/-- Case-insensitive substring test (a /literal/i regex with no
metacharacters). -/
def containsCI (pat : String) (s : String) : Bool :=
  searchAny (fun l => (ciLit pat.data l).isSome) s.data

/-- Case-sensitive substring test (String.prototype.includes). -/
def containsCS (pat : String) (s : String) : Bool :=
  searchAny (fun l => (l.take pat.length = pat.data : Bool)) s.data

/-- A database-name character for the capture group of the name-extraction
regexes: anything but a backtick, a semicolon or whitespace. -/
def nameChar (c : Char) : Bool :=
  !(c = backtickChar || c = ';' || jsWS c)

/-- The capture part of both name-extraction regexes: an optional backtick,
then a greedy non-empty run of name characters (the trailing optional
backtick constrains nothing). -/
def captureDbName (l : List Char) : Option String :=
  let core : List Char → Option String := fun l2 =>
    match l2 with
    | c :: _ => if nameChar c then some (String.mk (l2.takeWhile nameChar)) else none
    | [] => none
  match l with
  | c :: cs => if c = backtickChar then core cs else core l
  | [] => none

/-- Anchored match of the create-database regex of extractDatabaseName
(migration.service.js line 82 / part_001 line 100): the literal
"CREATE DATABASE", an optional whitespace-plus-"IF NOT EXISTS" group
(retried without the group when the tail fails, as regex backtracking
does), whitespace, then the captured name. -/
def matchCreateAt (l : List Char) : Option String :=
  match ciLit ("CREATE DATABASE".data) l with
  | none => none
  | some r1 =>
    let withGroup : Option String :=
      match (ws1 r1).bind (ciLit ("IF NOT EXISTS".data)) with
      | some r2 => (ws1 r2).bind captureDbName
      | none => none
    match withGroup with
    | some r => some r
    | none => (ws1 r1).bind captureDbName

/-- Anchored match of the use-database regex of extractDatabaseName
(migration.service.js line 87 / part_001 line 103): the literal "USE",
whitespace, then the captured name.  No word boundary is required, exactly
as in the source regex. -/
def matchUseAt (l : List Char) : Option String :=
  ((ciLit ("USE".data) l).bind ws1).bind captureDbName

/-- First create-database declaration found anywhere in the dump content. -/
def createDbMatch (content : String) : Option String :=
  scanFirst matchCreateAt content.data

/-- First use-database declaration found anywhere in the dump content. -/
def useDbMatch (content : String) : Option String :=
  scanFirst matchUseAt content.data

/-- extractDatabaseName (migration.service.js lines 78-94 / part_001
lines 97-107): create-database declaration first, then use-database
declaration, then the DATABASE_NAME-or-MYSQL_DATABASE environment
fallback. -/
def extractDatabaseName (content : String) (env : String → Option String) :
    Option String :=
  match createDbMatch content with
  | some n => some n
  | none =>
    match useDbMatch content with
    | some n => some n
    | none => jsOr (env "DATABASE_NAME") (env "MYSQL_DATABASE")

/-- Result shape of execProcess (part_001 lines 42-58): exit code and the
fully captured output streams.  An Except.ok value is a close with exit
code 0; an Except.error value is a non-zero exit (or a spawn failure,
which carries no streams). -/
structure ProcResult where
  code : Int
  stdout : String
  stderr : String
deriving DecidableEq, Repr

/-- Accumulate decimal digit characters into a number. -/
def digitsToNat : List Char → Nat → Nat
  | [], acc => acc
  | c :: cs, acc => digitsToNat cs (acc * 10 + (c.toNat - 48))

/-- JavaScript parseInt with radix 10 on a string: skip leading
whitespace, take an optional sign and the leading digit run; no digits
give NaN (modelled as none). -/
def jsParseInt (s : String) : Option Int :=
  let l := s.data.dropWhile jsWS
  match l with
  | c :: cs =>
    if c = '-' then
      (digits1Val cs).map (fun n => -(n : Int))
    else if c = '+' then (digits1Val cs).map (fun n => (n : Int))
    else (digits1Val l).map (fun n => (n : Int))
  | [] => none
where
  digits1Val (l : List Char) : Option Nat :=
    match l with
    | c :: _ => if c.isDigit then some (digitsToNat (l.takeWhile Char.isDigit) 0) else none
    | [] => none

/-- envInt (part_001 lines 87-92): unset or blank values give the
fallback, as does an unparsable value. -/
def envInt (env : String → Option String) (name : String) (fallback : Int) : Int :=
  match env name with
  | none => fallback
  | some v => if v.trim = "" then fallback else (jsParseInt v).getD fallback

/-- String value of an environment variable, empty when unset (only read
after presence has been validated). -/
def envStr (env : String → Option String) (name : String) : String :=
  (env name).getD ""

/-- The required settings validated by createPgloaderConfig
(part_001 lines 140-144). -/
def requiredEnvVars : List String :=
  ["MYSQL_HOST", "MYSQL_USER", "MYSQL_ROOT_PASSWORD", "MYSQL_ROOT",
   "POSTGRES_HOST", "POSTGRES_USER", "POSTGRES_PASSWORD", "POSTGRES_DB",
   "MYSQL_PORT_INTERNAL", "POSTGRES_PORT_INTERNAL"]

/-- The required settings missing from an environment, in declaration
order (part_001 line 146). -/
def missingOf (env : String → Option String) : List String :=
  requiredEnvVars.filter (fun v => !truthy (env v))

/-- The single-quote string used inside the generated configuration. -/
def sqStr : String := String.singleton quoteChar

/-- The pgloader configuration text assembled by createPgloaderConfig
(part_001 lines 166-178). -/
def pgloaderConfigText (mysqlUser mysqlPassword mysqlHost : String)
    (mysqlPort : Int) (mysqlDb pgUser pgPassword pgHost : String)
    (pgPort : Int) (pgDb : String) : String :=
  "LOAD DATABASE\n    FROM mysql://" ++ mysqlUser ++ ":" ++ mysqlPassword ++
    "@" ++ mysqlHost ++ ":" ++ toString mysqlPort ++ "/" ++ mysqlDb ++
  "\n    INTO postgres://" ++ pgUser ++ ":" ++ pgPassword ++
    "@" ++ pgHost ++ ":" ++ toString pgPort ++ "/" ++ pgDb ++
  "\n\nWITH include drop,\n     create tables,\n     create indexes," ++
  "\n     reset sequences,\n     workers = 8,\n     concurrency = 1" ++
  "\n\nEXCLUDING TABLE NAMES MATCHING " ++ sqStr ++ "_*" ++ sqStr ++ "\n;"

/-- createPgloaderConfig (part_001 lines 137-188): reject with the full
list of missing required settings first, then resolve the source database
name from the dump content (rejecting when it cannot be determined), then
assemble the configuration from the environment with percent-encoded
passwords.  The function is pure: it touches no external resource. -/
def createPgloaderConfig (env : String → Option String) (dumpContent : String) :
    Except String String :=
  let missingVars := missingOf env
  if missingVars.isEmpty then
    let mysqlDb := extractDatabaseName dumpContent env
    if truthy mysqlDb then
      Except.ok (pgloaderConfigText
        (envStr env "MYSQL_ROOT")
        (encodeCredentials (envStr env "MYSQL_ROOT_PASSWORD"))
        (envStr env "MYSQL_HOST")
        (envInt env "MYSQL_PORT_INTERNAL" 3306)
        (mysqlDb.getD "")
        (envStr env "POSTGRES_USER")
        (encodeCredentials (envStr env "POSTGRES_PASSWORD"))
        (envStr env "POSTGRES_HOST")
        (envInt env "POSTGRES_PORT_INTERNAL" 5432)
        (envStr env "POSTGRES_DB"))
    else
      Except.error "Unable to determine MySQL database name from dump or environment variables"
  else
    Except.error ("Missing required environment variables: " ++
      ", ".intercalate missingVars)

/-- Anchored match of the /ERROR backslash-s+ mysql:/i signature. -/
def matchErrorMysqlAt (l : List Char) : Bool :=
  (((ciLit ("ERROR".data) l).bind ws1).bind (ciLit ("mysql:".data))).isSome

/-- Anchored match of the /MySQL Error backslash-s* [digits]/i signature. -/
def matchMysqlErrorCodeAt (l : List Char) : Bool :=
  (((((ciLit ("MySQL Error".data) l).map wsAny).bind (chLit '[')).bind
      digits1).bind (chLit ']')).isSome

/-- Anchored match of the /signal backslash-s+ digits/i signature. -/
def matchSignalAt (l : List Char) : Bool :=
  (((ciLit ("signal".data) l).bind ws1).bind digits1).isSome

/-- The pgloader failure signatures scanned for in the combined output
(part_001 lines 382-391): an explicit mysql error marker, a
connection-failure phrase, a numbered MySQL error, FATAL, Unhandled, or a
signal report. -/
def hasErrorSignature (s : String) : Bool :=
  searchAny matchErrorMysqlAt s.data ||
  containsCI "Failed to connect" s ||
  searchAny matchMysqlErrorCodeAt s.data ||
  containsCI "FATAL" s ||
  containsCI "Unhandled" s ||
  searchAny matchSignalAt s.data

/-- Anchored match of /fetch meta data backslash-s+ 0 backslash-s+ 0
backslash-s+ 0/i. -/
def matchFetchMetaZerosAt (l : List Char) : Bool :=
  (((((((ciLit ("fetch meta data".data) l).bind ws1).bind (chLit '0')).bind
      ws1).bind (chLit '0')).bind ws1).bind (chLit '0')).isSome

/-- Anchored match of /fetch meta data backslash-s+ 0/i. -/
def matchFetchMetaZeroAt (l : List Char) : Bool :=
  (((ciLit ("fetch meta data".data) l).bind ws1).bind (chLit '0')).isSome

/-- The zero-rows-processed detection of part_001 lines 395-397, with the
JavaScript operator precedence a-or-(b-and-c). -/
def looksLikeNoWork (s : String) : Bool :=
  searchAny matchFetchMetaZerosAt s.data ||
  (containsCI "table name errors rows bytes total time" s &&
    searchAny matchFetchMetaZeroAt s.data)

/-- runPgloaderMigration (part_001 lines 343-419): a non-zero exit or
spawn failure is rethrown as a transfer failure; an exit-code-0 run whose
combined stdout-newline-stderr output matches a failure signature, or the
zero-work pattern, is also rejected; only a clean run succeeds.  The
rethrow in the catch block prefixes the inner message. -/
def runPgloaderMigration (res : Except ProcResult ProcResult) : Except String Unit :=
  match res with
  | Except.error _ => Except.error "pgloader migration failed: unknown error"
  | Except.ok r =>
    let combined := r.stdout ++ "\n" ++ r.stderr
    if hasErrorSignature combined then
      Except.error "pgloader migration failed: pgloader reported an error (see logs above)."
    else if looksLikeNoWork combined then
      Except.error "pgloader migration failed: pgloader finished but migrated 0 tables/rows (source DB empty or access denied)."
    else Except.ok ()

/-- startDockerContainers (part_001 lines 193-223): a compose failure is
rethrown with a fixed message; success yields nothing of interest to the
pipeline. -/
def startDockerContainers (res : Except ProcResult ProcResult) : Except String Unit :=
  match res with
  | Except.ok _ => Except.ok ()
  | Except.error _ => Except.error "Docker Compose failed to start"

/-- verifyPostgresHasTables (part_001 lines 425-447): best-effort, never
throws; reports whether the target listed at least one relation. -/
def verifyPostgresHasTables (res : Except ProcResult ProcResult) : Bool :=
  match res with
  | Except.ok r => !containsCS "Did not find any relations" r.stdout
  | Except.error _ => false

/-- exportPostgresDump (part_001 lines 452-484): writes the captured
pg_dump output under the session-scoped output path, or rethrows with a
fixed message. -/
def exportPostgresDump (migrationId : String) (res : Except ProcResult ProcResult) :
    Except String String :=
  match res with
  | Except.ok _ => Except.ok ("output/postgres_dump_" ++ migrationId ++ ".sql")
  | Except.error _ => Except.error "PostgreSQL dump export failed"

/-- Outcome of the readiness-polling loop. -/
inductive WaitResult where
  | ready (attempt : Nat)
  | timeout
deriving DecidableEq, Repr

/-- Both containers report healthy: the docker-inspect pair answered (no
exception) and both trimmed statuses equal "healthy" (part_001 line 279).
An exception on either inspect is modelled as none and continues the
loop, exactly like the catch branch. -/
def isReady : Option (String × String) → Bool
  | some (m, p) => m = "healthy" && p = "healthy"
  | none => false

/-- The attempt loop of waitForDatabases (part_001 lines 267-334): try
attempts in order; the first both-healthy attempt returns (the in-branch
dump-mount and table verifications are wrapped in their own catch blocks
and only log, so the branch always returns); anything else — unhealthy
answers or inspect exceptions — sleeps and retries until the attempts are
exhausted. -/
def waitLoop (health : Nat → Option (String × String)) :
    Nat → Nat → WaitResult
  | _, 0 => WaitResult.timeout
  | attempt, fuel + 1 =>
    if isReady (health attempt) then WaitResult.ready attempt
    else waitLoop health (attempt + 1) fuel

/-- The warning logged when the attempt bound is exhausted (part_001
line 337, with the elapsed-seconds interpolation omitted). -/
def timeoutWarningMsg : String :=
  "Database readiness timeout - proceeding anyway"

/-- waitForDatabases (part_001 lines 258-338): run the attempt loop from
attempt 1; exhaustion logs the timeout warning and returns normally.  The
function has no failure outcome at all. -/
def waitForDatabases (health : Nat → Option (String × String))
    (maxAttempts : Nat) : WaitResult × List String :=
  match waitLoop health 1 maxAttempts with
  | WaitResult.ready k => (WaitResult.ready k, [])
  | WaitResult.timeout => (WaitResult.timeout, [timeoutWarningMsg])

/-- Report of cleanupDockerProject: the warnings it logged and whether it
raised (it never does). -/
structure CleanupReport where
  warnings : List String
  raised : Bool
deriving DecidableEq, Repr

/-- cleanupDockerProject (part_001 lines 502-546): run compose down for
the session's project; any internal failure — including compose being
unavailable — is caught, logged as warnings ending in "proceeding without
cleanup", and never rethrown. -/
def cleanupDockerProject (run : Except String Unit) : CleanupReport :=
  match run with
  | Except.ok _ => { warnings := [], raised := false }
  | Except.error _ =>
    { warnings := ["Docker cleanup failed or skipped",
        "Proceeding without cleanup (this is usually OK for first run)"],
      raised := false }

/-- One pipeline stage, in the order startMigration awaits them
(part_001 lines 552-601). -/
inductive Stage where
  | prepare
  | config
  | provision
  | waitDb
  | transfer
  | verify
  | export
  | cleanup
deriving DecidableEq, Repr

/-- The external world one pipeline run interacts with: the process
environment at config time, the prepared dump's content, and the outcome
of every external command the stages issue. -/
structure PipelineEnv where
  migrationId : String
  envVars : String → Option String
  dumpContent : String
  prepareRes : Except String Unit
  dockerUp : Except ProcResult ProcResult
  health : Nat → Option (String × String)
  pgloaderRes : Except ProcResult ProcResult
  verifyRes : Except ProcResult ProcResult
  exportRes : Except ProcResult ProcResult
  cleanupRes : Except String Unit

/-- The try block of startMigration (part_001 lines 555-584): the stages
strictly in order, each failure aborting the remainder; alongside the
result, the list of stages that were actually entered. -/
def pipelineBody (env : PipelineEnv) : Except String String × List Stage :=
  match env.prepareRes with
  | Except.error e => (Except.error e, [Stage.prepare])
  | Except.ok _ =>
    match createPgloaderConfig env.envVars env.dumpContent with
    | Except.error e => (Except.error e, [Stage.prepare, Stage.config])
    | Except.ok _ =>
      match startDockerContainers env.dockerUp with
      | Except.error e =>
        (Except.error e, [Stage.prepare, Stage.config, Stage.provision])
      | Except.ok _ =>
        let _wait := waitForDatabases env.health 120
        match runPgloaderMigration env.pgloaderRes with
        | Except.error e =>
          (Except.error e,
            [Stage.prepare, Stage.config, Stage.provision, Stage.waitDb,
             Stage.transfer])
        | Except.ok _ =>
          let _v := verifyPostgresHasTables env.verifyRes
          match exportPostgresDump env.migrationId env.exportRes with
          | Except.error e =>
            (Except.error e,
              [Stage.prepare, Stage.config, Stage.provision, Stage.waitDb,
               Stage.transfer, Stage.verify, Stage.export])
          | Except.ok out =>
            (Except.ok out,
              [Stage.prepare, Stage.config, Stage.provision, Stage.waitDb,
               Stage.transfer, Stage.verify, Stage.export])

/-- Overall report of one startMigration run: its result, the stages
entered (teardown included), and the warnings teardown logged. -/
structure RunReport where
  result : Except String String
  trace : List Stage
  cleanupWarnings : List String
deriving Repr

/-- startMigration (part_001 lines 552-601): run the staged body; on
success cleanupDockerProject runs before the result is returned, on any
stage failure the catch block runs it before rethrowing the stage's
error.  cleanupDockerProject itself never throws, so it runs exactly once
either way and the body's outcome passes through it unchanged. -/
def startMigrationRun (env : PipelineEnv) : RunReport :=
  { result := (pipelineBody env).1,
    trace := (pipelineBody env).2 ++ [Stage.cleanup],
    cleanupWarnings := (cleanupDockerProject env.cleanupRes).warnings }

/-- One structured log entry, the payload of Logger.log (part_001
lines 18-32); the timestamp carries no information the claims are about
and is omitted. -/
structure LogEntry where
  level : String
  message : String
deriving DecidableEq, Repr

/-- The data object of a type-status event on the wire (server.js
lines 147-151 and 170-174): an absent field is none. -/
structure StatusData where
  status : Status
  progress : Nat
  outputFile : Option String
  error : Option String
deriving DecidableEq, Repr

/-- One event on the SSE wire and in the durable log: a type-log entry or
a type-status entry. -/
inductive Event where
  | logEv (e : LogEntry)
  | statusEv (d : StatusData)
deriving DecidableEq, Repr

/-- Whether an event is a type-log event. -/
def isLogEvent : Event → Bool
  | Event.logEv _ => true
  | Event.statusEv _ => false

/-- The fan-out state of one session: the durable per-session log file and
the full sequence of events delivered so far to each connected
subscriber, in subscription order. -/
structure BroadcastState where
  session : Session
  durableLog : List Event
  delivered : List (List Event)
deriving Repr

/-- Logger.log (part_001 lines 18-32): append the serialized entry to the
log file, then hand the same entry to the onLog callback, which the start
route forwards to every connected client (part_000 lines 149-161).  The
replay path re-parses and re-serializes the very line that was appended,
so the value delivered equals the value logged. -/
def loggerLog (st : BroadcastState) (e : LogEntry) : BroadcastState :=
  { st with
    durableLog := st.durableLog ++ [Event.logEv e],
    delivered := st.delivered.map (fun d => d ++ [Event.logEv e]) }

/-- broadcastStatus (part_000 lines 83-89, used by the completion and
failure continuations): write a type-status event to every connected
client.  No counterpart is appended to the durable log. -/
def broadcastStatus (st : BroadcastState) (d : StatusData) : BroadcastState :=
  { st with delivered := st.delivered.map (fun dl => dl ++ [Event.statusEv d]) }

/-- The snapshot written to a subscriber immediately on connection
(server.js lines 222-228 / part_000 lines 223-229): an object holding
exactly the session's status and progress — no outputFile, no error. -/
def snapshotData (m : Session) : StatusData :=
  { status := m.status, progress := m.progress, outputFile := none, error := none }

/-- The GET /logs handler (server.js lines 199-252 / part_000
lines 200-253): register the client, send the status snapshot, then
replay every line of the durable log.  The handler runs synchronously, so
no live event interleaves with the replay. -/
def subscribeLogs (st : BroadcastState) : BroadcastState :=
  { st with
    delivered :=
      st.delivered ++ [Event.statusEv (snapshotData st.session) :: st.durableLog] }

/-- The interleaved operations one session's lifetime applies to its
fan-out state: pipeline log emissions, terminal status broadcasts,
subscriber connections at arbitrary points, and — because the start
route's guard lets a terminal session be started again (see
c1_counterexample) — the Logger re-construction such a restart performs:
its constructor truncates the durable log file with an empty write
(part_001 line 15 / migration.service.js line 14), while the route keeps
the session's existing client list, so connected subscribers persist
across the truncation. -/
inductive SseOp where
  | logMsg (e : LogEntry)
  | statusMsg (d : StatusData)
  | connect
  | restartLogger
deriving DecidableEq, Repr

/-- Apply one operation.  The restart case is the Logger constructor's
writeFileSync of the empty string: the on-disk log becomes empty, and
nothing touches the subscriber lists (only the session record's own
fields change on a restart, not migration.clients). -/
def sseStep (st : BroadcastState) : SseOp → BroadcastState
  | SseOp.logMsg e => loggerLog st e
  | SseOp.statusMsg d => broadcastStatus st d
  | SseOp.connect => subscribeLogs st
  | SseOp.restartLogger => { st with durableLog := [] }

/-- Run a whole operation sequence. -/
def runSse (st : BroadcastState) (ops : List SseOp) : BroadcastState :=
  ops.foldl sseStep st

/-- The fan-out state of a session at its creation, before the pipeline
is first started: the log file does not exist yet and no subscriber is
connected.  The Logger construction of the first start produces the same
empty log; a later start of the same session re-runs that constructor
with subscribers possibly connected, which is the SseOp.restartLogger
transition above, not a fresh initialBroadcast state. -/
def initialBroadcast (s : Session) : BroadcastState :=
  { session := s, durableLog := [], delivered := [] }

/-- path.basename for posix paths: the part after the last slash. -/
def basename (p : String) : String :=
  String.mk ((p.data.reverse.takeWhile (fun c => !(c = '/'))).reverse)

/-- Response shape of GET /api/migrate/:migrationId/status. -/
structure StatusResponse where
  status : Status
  progress : Nat
  error : Option String
  outputFile : Option String
deriving DecidableEq, Repr

/-- The status endpoint (server.js lines 258-273 / part_000
lines 259-274): a point-in-time snapshot carrying status, progress, the
error field and the basename of the output file (null when the field is
falsy). -/
def statusEndpoint (m : Session) : StatusResponse :=
  { status := m.status, progress := m.progress, error := m.error,
    outputFile :=
      match m.outputFile with
      | some f => if f.isEmpty then none else some (basename f)
      | none => none }

lemma percentDecode_cons (c : Char) (t : List Char) (h : c ≠ '%') :
    percentDecode (c :: t) = c :: percentDecode t := by
  match t with
  | [] => simp [percentDecode, h]
  | [a] => simp [percentDecode, h]
  | a :: b :: r => simp [percentDecode, h]

lemma percentDecode_encChar_of (c a b : Char) (x y : Nat)
    (h1 : encChar c = ['%', a, b]) (h2 : hexVal a = some x)
    (h3 : hexVal b = some y) (h4 : Char.ofNat (16 * x + y) = c)
    (t : List Char) : percentDecode (encChar c ++ t) = c :: percentDecode t := by
  rw [h1]
  show percentDecode ('%' :: a :: b :: t) = _
  simp [percentDecode, h2, h3, h4]

lemma percentDecode_encChar (c : Char) (hr : c ∈ reservedCredChars) (t : List Char) :
    percentDecode (encChar c ++ t) = c :: percentDecode t := by
  fin_cases hr
  · exact percentDecode_encChar_of ':' '3' 'A' 3 10 (by decide) (by decide) (by decide) (by decide) t
  · exact percentDecode_encChar_of quoteChar '2' '7' 2 7 (by decide) (by decide) (by decide) (by decide) t
  · exact percentDecode_encChar_of '@' '4' '0' 4 0 (by decide) (by decide) (by decide) (by decide) t
  · exact percentDecode_encChar_of '/' '2' 'F' 2 15 (by decide) (by decide) (by decide) (by decide) t
  · exact percentDecode_encChar_of '?' '3' 'F' 3 15 (by decide) (by decide) (by decide) (by decide) t
  · exact percentDecode_encChar_of '#' '2' '3' 2 3 (by decide) (by decide) (by decide) (by decide) t
  · exact percentDecode_encChar_of '[' '5' 'B' 5 11 (by decide) (by decide) (by decide) (by decide) t
  · exact percentDecode_encChar_of ']' '5' 'D' 5 13 (by decide) (by decide) (by decide) (by decide) t

lemma percentDecode_encodeList (l : List Char) (h : '%' ∉ l) :
    percentDecode (encodeList l) = l := by
  induction l with
  | nil => rfl
  | cons c cs ih =>
    have hc : c ≠ '%' := fun e => h (by simp [e])
    have hcs : '%' ∉ cs := fun hm => h (List.mem_cons_of_mem _ hm)
    have hstep : encodeList (c :: cs) = encChar c ++ encodeList cs := by
      simp [encodeList]
    rw [hstep]
    by_cases hr : c ∈ reservedCredChars
    · rw [percentDecode_encChar c hr, ih hcs]
    · have he : encChar c = [c] := by
        simp [encChar, hr]
      rw [he, List.singleton_append, percentDecode_cons c _ hc, ih hcs]

/-- Claim C8, amended: a password that contains every reserved URI
character and no percent character round-trips — escaping it with
encodeCredentials and percent-decoding the result, as a connection-URI
parser would, yields back the original literal password.  (The
percent-free proviso is forced: encodeCredentials leaves percent signs
unescaped, so passwords containing percent-hex-hex runs do not
round-trip; see the counterexample.) -/
theorem c8_escape_roundtrip (s : String)
    (hall : ∀ c ∈ reservedCredChars, c ∈ s.data) (hnp : '%' ∉ s.data) :
    percentDecode (encodeCredentials s).data = s.data := by
  by_cases he : s.isEmpty
  · have hs : s = "" := (String.isEmpty_iff s).mp he
    subst hs
    exact absurd (hall ':' (by decide)) (by decide)
  · have : encodeCredentials s = String.mk (encodeList s.data) := by
      simp [encodeCredentials, he]
    rw [this]
    exact percentDecode_encodeList s.data hnp

/-- Witness for c8_escape_roundtrip at the password made of exactly the
eight reserved characters. -/
theorem c8_escape_roundtrip_witness :
    percentDecode (encodeCredentials (String.mk reservedCredChars)).data =
      (String.mk reservedCredChars).data :=
  c8_escape_roundtrip (String.mk reservedCredChars) (by decide) (by decide)

/-- A password that contains every reserved URI character and also a
percent-hex-hex run. -/
def c8BadPassword : String := String.mk ('%' :: '4' :: '1' :: reservedCredChars)

/-- Counterexample to claim C8 as stated: this password contains every
reserved URI character, yet escaping it and percent-decoding the result
does not give back the original (its literal percent-4-1 decodes to the
letter A). -/
theorem c8_counterexample :
    (∀ c ∈ reservedCredChars, c ∈ c8BadPassword.data) ∧
    percentDecode (encodeCredentials c8BadPassword).data ≠ c8BadPassword.data := by
  decide

/-- A session that has already completed, with its artifact in place. -/
def c1CompletedSession : Session :=
  { status := Status.completed, progress := 100,
    outputFile := some "output/postgres_dump_m1.sql", error := none,
    dbName := some "sales", cleaned := false }

/-- Counterexample to claim C1 as stated: the start handler's guard only
rejects a running session, so a session in the terminal completed state
is accepted again and re-enters running. -/
theorem c1_counterexample :
    (startMigrationHandler c1CompletedSession (Except.ok "sales")).1 =
      StartOutcome.accepted ∧
    (startMigrationHandler c1CompletedSession (Except.ok "sales")).2.status =
      Status.running := by
  decide

/-- Claim C1, amended: starting a session whose status is running is
rejected with a conflict response and no session field is mutated; but
the guard checks only running, so any session whose status is not running
— including the terminal states completed and failed — is started again
and re-enters running (with progress reset to 0) when pre-validation
succeeds. -/
theorem c1_start_guard (s : Session) (v : Except String String) :
    (s.status = Status.running → startMigrationHandler s v = (StartOutcome.conflict, s)) ∧
    (s.status ≠ Status.running → ∀ db, v = Except.ok db →
      (startMigrationHandler s v).1 = StartOutcome.accepted ∧
      (startMigrationHandler s v).2.status = Status.running ∧
      (startMigrationHandler s v).2.progress = 0) := by
  constructor
  · intro h
    simp [startMigrationHandler, h]
  · intro h db hv
    subst hv
    simp [startMigrationHandler, h]

/-- Witness for c1_start_guard: a running session is left exactly as it
was, and the response is the conflict. -/
theorem c1_start_guard_witness :
    startMigrationHandler { initSession with status := Status.running }
        (Except.ok "sales") =
      (StartOutcome.conflict, { initSession with status := Status.running }) :=
  (c1_start_guard { initSession with status := Status.running }
    (Except.ok "sales")).1 rfl

/-- Session states reachable through the route handlers when each start is
issued from the ready state and each terminal transition comes from the
run started for it (the restriction the amended claim C9 needs: the
handler itself would also accept a start on a terminal session, see
c1_counterexample, and such a restart carries the stale error or
outputFile field forward). -/
inductive SessionReach : Session → Prop where
  | init : SessionReach initSession
  | start (s : Session) (v : Except String String) : SessionReach s →
      s.status = Status.ready → SessionReach (startMigrationHandler s v).2
  | complete (s : Session) (f : String) : SessionReach s →
      s.status = Status.running → SessionReach (onMigrationCompleted s f)
  | fail (s : Session) (m : String) : SessionReach s →
      s.status = Status.running → SessionReach (onMigrationFailed s m)
  | cleanup (s : Session) : SessionReach s → SessionReach (cleanupArtifacts s)

/-- Claim C9, amended: over a session lifetime in which terminal sessions
are never restarted, after every operation the error field is non-null
exactly when the status is failed; a non-null outputFile implies status
completed; and a completed session has a non-null outputFile until the
download route's artifact cleanup runs — cleanup nulls outputFile while
the status stays completed, which is why the claimed biconditional for
outputFile does not survive it (see the counterexample). -/
theorem c9_session_fields (s : Session) (h : SessionReach s) :
    ((s.error ≠ none) ↔ s.status = Status.failed) ∧
    ((s.outputFile ≠ none) → s.status = Status.completed) ∧
    (s.status = Status.completed → s.outputFile ≠ none ∨ s.cleaned = true) := by
  induction h with
  | init => refine ⟨by simp [initSession], by simp [initSession], by simp [initSession]⟩
  | start s v hs hready ih =>
    have herr : s.error = none := by
      by_contra hne
      have := ih.1.mp hne
      rw [hready] at this
      exact Status.noConfusion this
    have hout : s.outputFile = none := by
      by_contra hne
      have := ih.2.1 hne
      rw [hready] at this
      exact Status.noConfusion this
    cases v with
    | error m =>
      simp [startMigrationHandler, hready, hout]
    | ok db =>
      simp [startMigrationHandler, hready, herr, hout]
  | complete s f hs hrun ih =>
    have herr : s.error = none := by
      by_contra hne
      have := ih.1.mp hne
      rw [hrun] at this
      exact Status.noConfusion this
    simp [onMigrationCompleted, herr]
  | fail s m hs hrun ih =>
    have hout : s.outputFile = none := by
      by_contra hne
      have := ih.2.1 hne
      rw [hrun] at this
      exact Status.noConfusion this
    simp [onMigrationFailed, hout]
  | cleanup s hs ih =>
    by_cases hout : s.outputFile = none
    · simpa [cleanupArtifacts, hout] using ih
    · refine ⟨?_, ?_, ?_⟩
      · simpa [cleanupArtifacts, hout] using ih.1
      · simp [cleanupArtifacts, hout]
      · simp [cleanupArtifacts, hout]

/-- A session that was started from ready and completed. -/
def c9ReachedState : Session :=
  onMigrationCompleted (startMigrationHandler initSession (Except.ok "sales")).2
    "output/postgres_dump_m1.sql"

/-- Witness for c9_session_fields on a concrete create-start-complete
lifetime. -/
theorem c9_session_fields_witness :
    ((c9ReachedState.error ≠ none) ↔ c9ReachedState.status = Status.failed) ∧
    ((c9ReachedState.outputFile ≠ none) → c9ReachedState.status = Status.completed) ∧
    (c9ReachedState.status = Status.completed →
      c9ReachedState.outputFile ≠ none ∨ c9ReachedState.cleaned = true) :=
  c9_session_fields c9ReachedState
    (SessionReach.complete (startMigrationHandler initSession (Except.ok "sales")).2
      "output/postgres_dump_m1.sql"
      (SessionReach.start initSession (Except.ok "sales") SessionReach.init rfl)
      (by decide))

/-- The same lifetime continued with the download route's artifact
cleanup. -/
def c9CleanedState : Session := cleanupArtifacts c9ReachedState

/-- Counterexample to claim C9 as stated: after a completed session's
result is downloaded and its artifacts are cleaned up, the session is
still completed but outputFile is null, so the claimed biconditional
fails. -/
theorem c9_counterexample :
    c9CleanedState.status = Status.completed ∧ c9CleanedState.outputFile = none ∧
    ¬ ((c9CleanedState.outputFile ≠ none) ↔ c9CleanedState.status = Status.completed) := by
  decide

/-- The fan-out invariant: every connected subscriber has been delivered,
as its type-log events, exactly the current durable log, and the durable
log holds only type-log events. -/
def sseInv (st : BroadcastState) : Prop :=
  (∀ d ∈ st.delivered, d.filter isLogEvent = st.durableLog) ∧
  st.durableLog.all isLogEvent = true

lemma sseStep_inv (st : BroadcastState) (op : SseOp)
    (hop : op ≠ SseOp.restartLogger) (h : sseInv st) :
    sseInv (sseStep st op) := by
  obtain ⟨h1, h2⟩ := h
  cases op with
  | restartLogger => exact absurd rfl hop
  | logMsg e =>
    constructor
    · intro d hd
      simp only [sseStep, loggerLog, List.mem_map] at hd ⊢
      obtain ⟨d0, hd0, rfl⟩ := hd
      simp [List.filter_append, isLogEvent, h1 d0 hd0]
    · simp only [sseStep, loggerLog, List.all_append]
      simp [h2, isLogEvent]
  | statusMsg d =>
    constructor
    · intro dl hdl
      simp only [sseStep, broadcastStatus, List.mem_map] at hdl ⊢
      obtain ⟨d0, hd0, rfl⟩ := hdl
      simp [List.filter_append, isLogEvent, h1 d0 hd0]
    · exact h2
  | connect =>
    constructor
    · intro d hd
      simp only [sseStep, subscribeLogs, List.mem_append, List.mem_singleton] at hd
      cases hd with
      | inl hmem => exact h1 d hmem
      | inr heq =>
        subst heq
        simp only [List.filter_cons, isLogEvent]
        simp only [Bool.false_eq_true, if_false]
        exact List.filter_eq_self.mpr (fun a ha => by
          simpa using List.all_eq_true.mp h2 a ha)
    · exact h2

lemma runSse_inv (ops : List SseOp) :
    ∀ (st : BroadcastState), (∀ op ∈ ops, op ≠ SseOp.restartLogger) →
      sseInv st → sseInv (runSse st ops) := by
  induction ops with
  | nil => intro st _ h; exact h
  | cons op rest ih =>
    intro st hops h
    exact ih (sseStep st op)
      (fun o ho => hops o (List.mem_cons_of_mem op ho))
      (sseStep_inv st op (hops op (List.mem_cons_self op rest)) h)

/-- Claim C2, amended: for every session lifetime in which the pipeline
is started only once — so the Logger constructor's truncation of the log
file never re-runs — and for every subscriber, whenever it connected, the
sequence of type-log events delivered to it (replay of the durable log
followed by live events) equals the full durable log in append order with
no duplication and no gaps, and each live type-log event is the very
entry appended to the durable log, in the same order.  Type-status events
— the subscription snapshot and the final terminal status event — are
broadcast live only and are never appended to the durable log.  Both
provisos are forced: the counterexample shows the delivered sequence
differing from the log by the status events, and, because the start guard
lets a terminal session be restarted (c1_counterexample), a restart's
Logger construction truncates the durable log while subscribers persist,
after which even the delivered type-log events no longer equal the log
and the log is not append-only. -/
theorem c2_replay_live (s : Session) (ops : List SseOp)
    (hops : SseOp.restartLogger ∉ ops) :
    (∀ d ∈ (runSse (initialBroadcast s) ops).delivered,
      d.filter isLogEvent = (runSse (initialBroadcast s) ops).durableLog) ∧
    (runSse (initialBroadcast s) ops).durableLog.all isLogEvent = true :=
  runSse_inv ops (initialBroadcast s)
    (fun o ho he => hops (he ▸ ho))
    (by constructor <;> simp [initialBroadcast])

/-- Witness for c2_replay_live: in a restart-free lifetime, a subscriber
that connected before the only log event was emitted has been delivered
exactly that log event (besides its status snapshot). -/
theorem c2_replay_live_witness :
    ([Event.statusEv (snapshotData initSession),
        Event.logEv { level := "INFO", message := "Starting migration m1" }].filter
      isLogEvent) =
      (runSse (initialBroadcast initSession)
        [SseOp.connect,
         SseOp.logMsg { level := "INFO", message := "Starting migration m1" }]).durableLog :=
  (c2_replay_live initSession
    [SseOp.connect,
     SseOp.logMsg { level := "INFO", message := "Starting migration m1" }]
    (by decide)).1
    _ (by decide)

/-- The operation sequence of a watched run that completes: one connected
subscriber, one log emission, then the terminal status broadcast. -/
def c2Ops : List SseOp :=
  [SseOp.connect,
   SseOp.logMsg { level := "INFO", message := "Starting migration m1" },
   SseOp.statusMsg
     { status := Status.completed, progress := 100,
       outputFile := some "postgres_dump_m1.sql", error := none }]

/-- The resulting fan-out state. -/
def c2Run : BroadcastState := runSse (initialBroadcast initSession) c2Ops

/-- A watched lifetime in which the first run fails and the session is
then restarted (which the start guard permits): the subscriber stays
connected while the restart's Logger construction truncates the durable
log, and the second run logs its first entry. -/
def c2RestartOps : List SseOp :=
  [SseOp.connect,
   SseOp.logMsg { level := "INFO", message := "Starting migration m1" },
   SseOp.statusMsg
     { status := Status.failed, progress := 0, outputFile := none,
       error := some "pgloader migration failed: unknown error" },
   SseOp.restartLogger,
   SseOp.logMsg { level := "INFO", message := "Preparing MySQL dump file..." }]

/-- The resulting fan-out state of the restarted lifetime. -/
def c2RestartRun : BroadcastState := runSse (initialBroadcast initSession) c2RestartOps

/-- Counterexample to claim C2 as stated, in both of its failure modes.
First: the terminal status event is delivered to the subscriber but never
appended to the durable log (and the subscription snapshot is delivered
without being logged either), so the delivered sequence does not equal
the durable log.  Second: across a permitted restart of the failed
session the Logger constructor truncates the durable log while the
subscriber stays connected, so the log is not append-only and even the
subscriber's delivered type-log events (both runs' entries) no longer
equal the durable log (the second run's entry alone). -/
theorem c2_counterexample :
    (c2Run.durableLog =
      [Event.logEv { level := "INFO", message := "Starting migration m1" }] ∧
    c2Run.delivered =
      [[Event.statusEv (snapshotData initSession),
        Event.logEv { level := "INFO", message := "Starting migration m1" },
        Event.statusEv
          { status := Status.completed, progress := 100,
            outputFile := some "postgres_dump_m1.sql", error := none }]] ∧
    ¬ (∀ d ∈ c2Run.delivered, d = c2Run.durableLog)) ∧
    (c2RestartRun.durableLog =
      [Event.logEv { level := "INFO", message := "Preparing MySQL dump file..." }] ∧
    c2RestartRun.delivered =
      [[Event.statusEv (snapshotData initSession),
        Event.logEv { level := "INFO", message := "Starting migration m1" },
        Event.statusEv
          { status := Status.failed, progress := 0, outputFile := none,
            error := some "pgloader migration failed: unknown error" },
        Event.logEv { level := "INFO", message := "Preparing MySQL dump file..." }]] ∧
    ¬ (∀ d ∈ c2RestartRun.delivered,
        d.filter isLogEvent = c2RestartRun.durableLog)) := by
  decide

/-- Claim C10: the status snapshot written to a subscriber immediately on
connection carries exactly the session's status and progress and never an
outputFile or error — even when the session is already completed or
failed — while the point-in-time status endpoint does expose the error
field and the output file's basename.  A late subscriber therefore
obtains outputFile or error only from the status endpoint, not from the
initial stream snapshot. -/
theorem c10_snapshot_fields (st : BroadcastState) (m : Session)
    (hm : st.session = m) :
    (subscribeLogs st).delivered =
      st.delivered ++ [Event.statusEv (snapshotData m) :: st.durableLog] ∧
    (snapshotData m).status = m.status ∧
    (snapshotData m).progress = m.progress ∧
    (snapshotData m).outputFile = none ∧
    (snapshotData m).error = none ∧
    (statusEndpoint m).error = m.error ∧
    (∀ f, m.outputFile = some f → f.isEmpty = false →
      (statusEndpoint m).outputFile = some (basename f)) := by
  subst hm
  refine ⟨rfl, rfl, rfl, rfl, rfl, rfl, ?_⟩
  intro f hf hne
  simp [statusEndpoint, hf, hne]

/-- A session that is already completed when a late subscriber connects. -/
def c10Session : Session :=
  { status := Status.completed, progress := 100,
    outputFile := some "output/postgres_dump_m7.sql", error := none,
    dbName := some "sales", cleaned := false }

/-- Witness for c10_snapshot_fields: for the completed session, the
snapshot has no outputFile, while the status endpoint returns the
artifact's basename. -/
theorem c10_snapshot_fields_witness :
    (snapshotData c10Session).outputFile = none ∧
    (statusEndpoint c10Session).outputFile = some "postgres_dump_m7.sql" := by
  refine ⟨(c10_snapshot_fields (initialBroadcast c10Session) c10Session rfl).2.2.2.1, ?_⟩
  have h := (c10_snapshot_fields (initialBroadcast c10Session) c10Session rfl).2.2.2.2.2.2
    "output/postgres_dump_m7.sql" rfl (by decide)
  rw [h]
  decide

lemma cleanup_not_in_pipelineBody (env : PipelineEnv) :
    Stage.cleanup ∉ (pipelineBody env).2 := by
  rcases hp : env.prepareRes with ep | up
  · simp [pipelineBody, hp]
  · rcases hc : createPgloaderConfig env.envVars env.dumpContent with ec | uc
    · simp [pipelineBody, hp, hc]
    · rcases hd : startDockerContainers env.dockerUp with ed | ud
      · simp [pipelineBody, hp, hc, hd]
      · rcases hg : runPgloaderMigration env.pgloaderRes with eg | ug
        · simp [pipelineBody, hp, hc, hd, hg]
        · rcases hx : exportPostgresDump env.migrationId env.exportRes with ee | ue
          · simp [pipelineBody, hp, hc, hd, hg, hx]
          · simp [pipelineBody, hp, hc, hd, hg, hx]

/-- Claim C3: teardown runs exactly once per pipeline run, whether every
stage succeeds or any stage aborts (a stage-one failure included); the
run's result is completely independent of the teardown outcome (so a
teardown failure never changes the terminal status); teardown never
raises; and a failing teardown logs the proceeding-without-cleanup
warning. -/
theorem c3_cleanup_once (env : PipelineEnv) :
    (startMigrationRun env).trace.count Stage.cleanup = 1 ∧
    (∀ c, (startMigrationRun { env with cleanupRes := c }).result =
      (startMigrationRun env).result) ∧
    (∀ c, (cleanupDockerProject c).raised = false) ∧
    (∀ m, env.cleanupRes = Except.error m →
      "Proceeding without cleanup (this is usually OK for first run)" ∈
        (startMigrationRun env).cleanupWarnings) := by
  refine ⟨?_, ?_, ?_, ?_⟩
  · have h := cleanup_not_in_pipelineBody env
    simp only [startMigrationRun, List.count_append]
    rw [List.count_eq_zero.mpr h]
    decide
  · intro c
    rfl
  · intro c
    cases c <;> rfl
  · intro m hm
    simp [startMigrationRun, cleanupDockerProject, hm]

/-- The environment lookup used by the concrete pipeline environments:
all ten required settings present. -/
def sampleEnvVars : String → Option String := fun n =>
  (([("MYSQL_HOST", "mysql-source"), ("MYSQL_USER", "app"),
     ("MYSQL_ROOT", "root"), ("MYSQL_ROOT_PASSWORD", "rootpw"),
     ("MYSQL_PORT_INTERNAL", "3306"), ("POSTGRES_HOST", "postgres-target"),
     ("POSTGRES_USER", "postgres"), ("POSTGRES_PASSWORD", "pgpw"),
     ("POSTGRES_DB", "target_db"), ("POSTGRES_PORT_INTERNAL", "5432")] :
    List (String × String)).lookup n)

/-- A clean external-command result. -/
def okProc : ProcResult := { code := 0, stdout := "done", stderr := "" }

/-- A fully successful pipeline environment whose teardown fails (the
resource group is already gone). -/
def c3Env : PipelineEnv :=
  { migrationId := "m1", envVars := sampleEnvVars,
    dumpContent := "CREATE DATABASE sales;", prepareRes := Except.ok (),
    dockerUp := Except.ok okProc,
    health := fun _ => some ("healthy", "healthy"),
    pgloaderRes := Except.ok okProc, verifyRes := Except.ok okProc,
    exportRes := Except.ok okProc, cleanupRes := Except.error "no such project" }

/-- Witness for c3_cleanup_once on the concrete run with a failing
teardown. -/
theorem c3_cleanup_once_witness :
    (startMigrationRun c3Env).trace.count Stage.cleanup = 1 ∧
    "Proceeding without cleanup (this is usually OK for first run)" ∈
      (startMigrationRun c3Env).cleanupWarnings :=
  ⟨(c3_cleanup_once c3Env).1, (c3_cleanup_once c3Env).2.2.2 "no such project" rfl⟩

lemma waitLoop_ready (health : Nat → Option (String × String)) :
    ∀ (fuel attempt k : Nat), attempt ≤ k → k < attempt + fuel →
      isReady (health k) = true →
      (∀ j, attempt ≤ j → j < k → isReady (health j) = false) →
      waitLoop health attempt fuel = WaitResult.ready k := by
  intro fuel
  induction fuel with
  | zero =>
    intro attempt k h1 h2 _ _
    omega
  | succ n ih =>
    intro attempt k h1 h2 hr hmin
    by_cases he : attempt = k
    · subst he
      simp [waitLoop, hr]
    · have hlt : attempt < k := lt_of_le_of_ne h1 he
      have hnot : isReady (health attempt) = false := hmin attempt le_rfl hlt
      simp only [waitLoop, hnot, Bool.false_eq_true, if_false]
      exact ih (attempt + 1) k hlt (by omega) hr
        (fun j hj1 hj2 => hmin j (by omega) hj2)

lemma waitLoop_timeout (health : Nat → Option (String × String)) :
    ∀ (fuel attempt : Nat),
      (∀ j, attempt ≤ j → j < attempt + fuel → isReady (health j) = false) →
      waitLoop health attempt fuel = WaitResult.timeout := by
  intro fuel
  induction fuel with
  | zero => intro attempt _; rfl
  | succ n ih =>
    intro attempt hall
    have hnot : isReady (health attempt) = false := hall attempt le_rfl (by omega)
    simp only [waitLoop, hnot, Bool.false_eq_true, if_false]
    exact ih (attempt + 1) (fun j hj1 hj2 => hall j (by omega) (by omega))

/-- Claim C7: the readiness poller returns at the first attempt within
the bound at which both resources report healthy, rather than exhausting
the remaining attempts; when the bound is exhausted without both ever
being healthy it logs the timeout warning and returns normally; and the
poller can never abort the pipeline — the run's result and stage trace
are completely independent of the readiness answers, and whenever the
readiness stage is entered the transfer stage is entered too. -/
theorem c7_readiness_poller (health : Nat → Option (String × String))
    (maxAttempts : Nat) :
    (∀ k, 1 ≤ k → k ≤ maxAttempts → isReady (health k) = true →
      (∀ j, 1 ≤ j → j < k → isReady (health j) = false) →
      waitForDatabases health maxAttempts = (WaitResult.ready k, [])) ∧
    ((∀ j, 1 ≤ j → j ≤ maxAttempts → isReady (health j) = false) →
      waitForDatabases health maxAttempts = (WaitResult.timeout, [timeoutWarningMsg])) ∧
    (∀ env : PipelineEnv,
      (startMigrationRun { env with health := health }).result =
        (startMigrationRun env).result ∧
      (startMigrationRun { env with health := health }).trace =
        (startMigrationRun env).trace) ∧
    (∀ env : PipelineEnv, Stage.waitDb ∈ (startMigrationRun env).trace →
      Stage.transfer ∈ (startMigrationRun env).trace) := by
  refine ⟨?_, ?_, ?_, ?_⟩
  · intro k h1 h2 hr hmin
    have := waitLoop_ready health maxAttempts 1 k h1 (by omega) hr
      (fun j hj1 hj2 => hmin j hj1 hj2)
    simp [waitForDatabases, this]
  · intro hall
    have := waitLoop_timeout health maxAttempts 1
      (fun j hj1 hj2 => hall j hj1 (by omega))
    simp [waitForDatabases, this]
  · intro env
    exact ⟨rfl, rfl⟩
  · intro env
    rcases hp : env.prepareRes with ep | up
    · simp [startMigrationRun, pipelineBody, hp]
    · rcases hc : createPgloaderConfig env.envVars env.dumpContent with ec | uc
      · simp [startMigrationRun, pipelineBody, hp, hc]
      · rcases hd : startDockerContainers env.dockerUp with ed | ud
        · simp [startMigrationRun, pipelineBody, hp, hc, hd]
        · rcases hg : runPgloaderMigration env.pgloaderRes with eg | ug
          · simp [startMigrationRun, pipelineBody, hp, hc, hd, hg]
          · rcases hx : exportPostgresDump env.migrationId env.exportRes with ee | ue
            · simp [startMigrationRun, pipelineBody, hp, hc, hd, hg, hx]
            · simp [startMigrationRun, pipelineBody, hp, hc, hd, hg, hx]

/-- A readiness history that first reports healthy on the third attempt. -/
def c7Health : Nat → Option (String × String) := fun k =>
  if k = 3 then some ("healthy", "healthy")
  else if k < 3 then some ("starting", "healthy")
  else none

/-- Witness for c7_readiness_poller: polling stops at attempt 3 of 120,
and a never-ready history of 2 attempts produces the timeout warning. -/
theorem c7_readiness_poller_witness :
    waitForDatabases c7Health 120 = (WaitResult.ready 3, []) ∧
    waitForDatabases (fun _ => none) 2 = (WaitResult.timeout, [timeoutWarningMsg]) := by
  constructor
  · refine (c7_readiness_poller c7Health 120).1 3 (by decide) (by decide) (by decide) ?_
    intro j h1 h2
    interval_cases j <;> decide
  · refine (c7_readiness_poller (fun _ => none) 2).2.1 ?_
    intro j h1 h2
    rfl

/-- An environment holding exactly the nine settings the claim names
(source host, user, password, internal port; target host, user, password,
database name, internal port) — but not MYSQL_ROOT. -/
def c4NineSettings : String → Option String := fun n =>
  (([("MYSQL_HOST", "mysql-source"), ("MYSQL_USER", "app"),
     ("MYSQL_ROOT_PASSWORD", "rootpw"), ("MYSQL_PORT_INTERNAL", "3306"),
     ("POSTGRES_HOST", "postgres-target"), ("POSTGRES_USER", "postgres"),
     ("POSTGRES_PASSWORD", "pgpw"), ("POSTGRES_DB", "target_db"),
     ("POSTGRES_PORT_INTERNAL", "5432")] :
    List (String × String)).lookup n)

/-- Counterexample to claim C4 as stated: with every one of the nine
claimed settings present, config generation still fails — the code
additionally requires the MYSQL_ROOT setting, so the validated set is not
exactly the claimed nine. -/
theorem c4_counterexample :
    (["MYSQL_HOST", "MYSQL_USER", "MYSQL_ROOT_PASSWORD",
        "MYSQL_PORT_INTERNAL", "POSTGRES_HOST", "POSTGRES_USER",
        "POSTGRES_PASSWORD", "POSTGRES_DB", "POSTGRES_PORT_INTERNAL"].all
      (fun v => truthy (c4NineSettings v)) = true) ∧
    createPgloaderConfig c4NineSettings "CREATE DATABASE sales;" =
      Except.error "Missing required environment variables: MYSQL_ROOT" := by
  decide

/-- Claim C4, amended: if any required setting is absent the
config-generation stage fails synchronously with an error naming every
missing setting, before any provisioning happens — with the validated set
being the ten settings of requiredEnvVars: the claimed nine plus the
source root username MYSQL_ROOT (the legacy MYSQL_USER setting is
validated although only MYSQL_ROOT and MYSQL_ROOT_PASSWORD are embedded
in the source URI). -/
theorem c4_missing_settings (env : String → Option String) (content : String)
    (hm : missingOf env ≠ []) :
    createPgloaderConfig env content =
      Except.error ("Missing required environment variables: " ++
        ", ".intercalate (missingOf env)) ∧
    (∀ penv : PipelineEnv, penv.envVars = env → penv.dumpContent = content →
      penv.prepareRes = Except.ok () →
      (startMigrationRun penv).result =
        Except.error ("Missing required environment variables: " ++
          ", ".intercalate (missingOf env)) ∧
      Stage.provision ∉ (startMigrationRun penv).trace) := by
  have hne : (missingOf env).isEmpty = false := by
    cases hmf : missingOf env with
    | nil => exact absurd hmf hm
    | cons a l => rfl
  have h1 : createPgloaderConfig env content =
      Except.error ("Missing required environment variables: " ++
        ", ".intercalate (missingOf env)) := by
    simp [createPgloaderConfig, hne]
  refine ⟨h1, ?_⟩
  intro penv he hd hp
  constructor
  · simp [startMigrationRun, pipelineBody, hp, he, hd, h1]
  · simp [startMigrationRun, pipelineBody, hp, he, hd, h1]

/-- Witness for c4_missing_settings on the nine-setting environment,
whose only missing required setting is MYSQL_ROOT. -/
theorem c4_missing_settings_witness :
    createPgloaderConfig c4NineSettings "CREATE DATABASE sales;" =
      Except.error ("Missing required environment variables: " ++
        ", ".intercalate (missingOf c4NineSettings)) :=
  (c4_missing_settings c4NineSettings "CREATE DATABASE sales;" (by decide)).1

/-- Claim C5: when the transfer command exits with code 0 but its
captured combined output matches a failure signature (an explicit error
marker or connection-failure phrase) or the zero-rows-processed pattern,
the transfer stage raises the transfer error, the verify and export
stages are never entered, and teardown still runs exactly once. -/
theorem c5_transfer_signature (env : PipelineEnv) (r : ProcResult)
    (hp : env.prepareRes = Except.ok ())
    (hcfg : (createPgloaderConfig env.envVars env.dumpContent).isOk = true)
    (hd : startDockerContainers env.dockerUp = Except.ok ())
    (hres : env.pgloaderRes = Except.ok r)
    (_hcode : r.code = 0)
    (hsig : hasErrorSignature (r.stdout ++ "\n" ++ r.stderr) = true ∨
      looksLikeNoWork (r.stdout ++ "\n" ++ r.stderr) = true) :
    ((startMigrationRun env).result =
        Except.error "pgloader migration failed: pgloader reported an error (see logs above)." ∨
      (startMigrationRun env).result =
        Except.error "pgloader migration failed: pgloader finished but migrated 0 tables/rows (source DB empty or access denied).") ∧
    (hasErrorSignature (r.stdout ++ "\n" ++ r.stderr) = true →
      (startMigrationRun env).result =
        Except.error "pgloader migration failed: pgloader reported an error (see logs above).") ∧
    Stage.export ∉ (startMigrationRun env).trace ∧
    Stage.verify ∉ (startMigrationRun env).trace ∧
    (startMigrationRun env).trace.count Stage.cleanup = 1 := by
  obtain ⟨cfg, hc⟩ : ∃ cfg, createPgloaderConfig env.envVars env.dumpContent =
      Except.ok cfg := by
    cases h : createPgloaderConfig env.envVars env.dumpContent with
    | error e =>
      rw [h] at hcfg
      simp [Except.isOk, Except.toBool] at hcfg
    | ok cfg => exact ⟨cfg, rfl⟩
  by_cases hsg : hasErrorSignature (r.stdout ++ "\n" ++ r.stderr) = true
  · have hrun : runPgloaderMigration env.pgloaderRes = Except.error
        "pgloader migration failed: pgloader reported an error (see logs above)." := by
      rw [hres]
      simp [runPgloaderMigration, hsg]
    refine ⟨Or.inl ?_, fun _ => ?_, ?_, ?_, ?_⟩ <;>
      simp [startMigrationRun, pipelineBody, hp, hc, hd, hrun, List.count_append]
  · have hnw : looksLikeNoWork (r.stdout ++ "\n" ++ r.stderr) = true := by
      cases hsig with
      | inl h => exact absurd h hsg
      | inr h => exact h
    have hsgf : hasErrorSignature (r.stdout ++ "\n" ++ r.stderr) = false := by
      cases h : hasErrorSignature (r.stdout ++ "\n" ++ r.stderr) with
      | true => exact absurd h hsg
      | false => rfl
    have hrun : runPgloaderMigration env.pgloaderRes = Except.error
        "pgloader migration failed: pgloader finished but migrated 0 tables/rows (source DB empty or access denied)." := by
      rw [hres]
      simp [runPgloaderMigration, hsgf, hnw]
    refine ⟨Or.inr ?_, fun hcontra => absurd hcontra hsg, ?_, ?_, ?_⟩ <;>
      simp [startMigrationRun, pipelineBody, hp, hc, hd, hrun, List.count_append]

/-- A transfer run that exits 0 while logging a connection failure. -/
def c5ErrProc : ProcResult :=
  { code := 0,
    stdout := "2024-05-01T10:00:00 ERROR mysql: Failed to connect to mysql server at mysql-source",
    stderr := "" }

/-- A pipeline environment whose transfer command exits 0 with a failure
signature in its output. -/
def c5Env : PipelineEnv :=
  { migrationId := "m3", envVars := sampleEnvVars,
    dumpContent := "CREATE DATABASE sales;", prepareRes := Except.ok (),
    dockerUp := Except.ok okProc,
    health := fun _ => some ("healthy", "healthy"),
    pgloaderRes := Except.ok c5ErrProc, verifyRes := Except.ok okProc,
    exportRes := Except.ok okProc, cleanupRes := Except.ok () }

/-- Witness for c5_transfer_signature on the concrete zero-exit
failure-signature run. -/
theorem c5_transfer_signature_witness :
    (startMigrationRun c5Env).result =
      Except.error "pgloader migration failed: pgloader reported an error (see logs above)." ∧
    Stage.export ∉ (startMigrationRun c5Env).trace ∧
    (startMigrationRun c5Env).trace.count Stage.cleanup = 1 := by
  have h := c5_transfer_signature c5Env c5ErrProc rfl (by decide) rfl rfl rfl
    (Or.inl (by decide))
  exact ⟨h.2.1 (by decide), h.2.2.1, h.2.2.2.2⟩

/-- Claim C6: the target database name is resolved from the dump content
with create-database declarations taking precedence over use-database
declarations, which take precedence over the pre-configured fallback
name; a dump beginning with a create-database declaration naming sales
resolves to sales; and when no declaration is found and no fallback is
configured, the pipeline fails with the validation error before the
provisioning stage is ever entered. -/
theorem c6_name_resolution (env : String → Option String) (content : String) :
    (∀ n, createDbMatch content = some n →
      extractDatabaseName content env = some n) ∧
    (createDbMatch content = none → ∀ n, useDbMatch content = some n →
      extractDatabaseName content env = some n) ∧
    (createDbMatch content = none → useDbMatch content = none →
      extractDatabaseName content env =
        jsOr (env "DATABASE_NAME") (env "MYSQL_DATABASE")) ∧
    (extractDatabaseName "CREATE DATABASE sales;" env = some "sales") ∧
    (∀ penv : PipelineEnv, penv.envVars = env → penv.dumpContent = content →
      penv.prepareRes = Except.ok () → missingOf env = [] →
      truthy (extractDatabaseName content env) = false →
      (startMigrationRun penv).result = Except.error
        "Unable to determine MySQL database name from dump or environment variables" ∧
      Stage.provision ∉ (startMigrationRun penv).trace) := by
  refine ⟨?_, ?_, ?_, ?_, ?_⟩
  · intro n hc
    simp [extractDatabaseName, hc]
  · intro hc n hu
    simp [extractDatabaseName, hc, hu]
  · intro hc hu
    simp [extractDatabaseName, hc, hu]
  · have hc : createDbMatch "CREATE DATABASE sales;" = some "sales" := by decide
    simp [extractDatabaseName, hc]
  · intro penv he hd hp hm hext
    have hcfg : createPgloaderConfig env content = Except.error
        "Unable to determine MySQL database name from dump or environment variables" := by
      have hm2 : (missingOf env).isEmpty = true := by rw [hm]; rfl
      simp [createPgloaderConfig, hm2, hext]
    constructor
    · simp [startMigrationRun, pipelineBody, hp, he, hd, hcfg]
    · simp [startMigrationRun, pipelineBody, hp, he, hd, hcfg]

/-- A pipeline environment whose dump holds no database declaration and
whose configuration has no fallback database name. -/
def c6Env : PipelineEnv :=
  { migrationId := "m4", envVars := sampleEnvVars,
    dumpContent := "INSERT INTO t VALUES (1);", prepareRes := Except.ok (),
    dockerUp := Except.ok okProc,
    health := fun _ => some ("healthy", "healthy"),
    pgloaderRes := Except.ok okProc, verifyRes := Except.ok okProc,
    exportRes := Except.ok okProc, cleanupRes := Except.ok () }

/-- Witness for c6_name_resolution: scenario A on a concrete sales dump,
and scenario B on the declaration-free, fallback-free environment where
the run fails with the validation error and provisioning is never
entered. -/
theorem c6_name_resolution_witness :
    extractDatabaseName "CREATE DATABASE sales;" sampleEnvVars = some "sales" ∧
    ((startMigrationRun c6Env).result = Except.error
      "Unable to determine MySQL database name from dump or environment variables" ∧
     Stage.provision ∉ (startMigrationRun c6Env).trace) :=
  ⟨(c6_name_resolution sampleEnvVars "CREATE DATABASE sales;").2.2.2.1,
   (c6_name_resolution sampleEnvVars "INSERT INTO t VALUES (1);").2.2.2.2
     c6Env rfl rfl rfl (by decide) (by decide)⟩
